import Mathlib

/-!
Shallow embedding of the scoring core of `pageyou-webpage-checker`:
`src/config/constants.ts`, `src/scoring/ScoringEngine.ts` and
`src/scoring/OpportunityCalculator.ts`.  TypeScript numbers are modelled
as rationals (all constants in the sources are exact decimals), `Math.round`
as the Mathlib `round` (both send `x` to the floor of `x + 1/2`), `Math.ceil` as `Int.ceil`,
and `Math.max`/`Math.min` as `max`/`min`.
-/

namespace PageYou

/-- The five score categories (keys of `ScoringWeights` / `weightMultipliers`). -/
structure CategoryMap (α : Type) where
  performance : α
  mobile : α
  seo : α
  conversion : α
  content : α
deriving DecidableEq

/-- Embeds `IndustryConfig` from `src/types` (the `keywords` / `criticalElements`
string lists play no role in the scoring core and are omitted from the
embedding of the records that only read `weightMultipliers` and
`averageMonthlyRevenue`). -/
structure IndustryConfig where
  weightMultipliers : CategoryMap ℚ
  averageMonthlyRevenue : ℚ
deriving DecidableEq

/-- Embeds `INDUSTRY_CONFIGS.restaurant` from `src/config/constants.ts`. -/
def restaurantConfig : IndustryConfig :=
  { weightMultipliers :=
      { performance := 1.0, mobile := 1.2, seo := 0.9, conversion := 1.3, content := 0.8 }
    averageMonthlyRevenue := 3000000 }

/-- Embeds `INDUSTRY_CONFIGS.beauty` from `src/config/constants.ts`. -/
def beautyConfig : IndustryConfig :=
  { weightMultipliers :=
      { performance := 0.9, mobile := 1.3, seo := 1.0, conversion := 1.2, content := 1.0 }
    averageMonthlyRevenue := 2000000 }

/-- Embeds `INDUSTRY_CONFIGS.clinic` from `src/config/constants.ts`. -/
def clinicConfig : IndustryConfig :=
  { weightMultipliers :=
      { performance := 1.1, mobile := 1.1, seo := 1.2, conversion := 1.0, content := 1.1 }
    averageMonthlyRevenue := 5000000 }

/-- Embeds `INDUSTRY_CONFIGS.retail` from `src/config/constants.ts`. -/
def retailConfig : IndustryConfig :=
  { weightMultipliers :=
      { performance := 1.2, mobile := 1.0, seo := 1.1, conversion := 0.9, content := 1.0 }
    averageMonthlyRevenue := 4000000 }

/-- Embeds `INDUSTRY_CONFIGS.legal` from `src/config/constants.ts`. -/
def legalConfig : IndustryConfig :=
  { weightMultipliers :=
      { performance := 0.8, mobile := 0.9, seo := 1.3, conversion := 1.1, content := 1.3 }
    averageMonthlyRevenue := 3500000 }

/-- Embeds `INDUSTRY_CONFIGS.default` from `src/config/constants.ts`. -/
def defaultConfig : IndustryConfig :=
  { weightMultipliers :=
      { performance := 1.0, mobile := 1.0, seo := 1.0, conversion := 1.0, content := 1.0 }
    averageMonthlyRevenue := 2500000 }

/-- Embeds `INDUSTRY_CONFIGS` as a keyed lookup (`Record<string, IndustryConfig>`):
indexing a JS record with a missing key yields `undefined`, modelled as `none`. -/
def INDUSTRY_CONFIGS (id : String) : Option IndustryConfig :=
  if id = "restaurant" then some restaurantConfig
  else if id = "beauty" then some beautyConfig
  else if id = "clinic" then some clinicConfig
  else if id = "retail" then some retailConfig
  else if id = "legal" then some legalConfig
  else if id = "default" then some defaultConfig
  else none

/-- Embeds `DEFAULT_SCORING_WEIGHTS` from `src/config/constants.ts`. -/
def DEFAULT_SCORING_WEIGHTS : CategoryMap ℚ :=
  { performance := 0.25, mobile := 0.20, seo := 0.20, conversion := 0.20, content := 0.15 }

/-- One plan record of `PAGEYOU_PLANS` (the `name`/`features` strings are
not read by the scoring core). -/
structure PlanConfig where
  targetScore : ℚ
  monthlyPrice : ℚ
deriving DecidableEq

/-- The plan keys Simple, Standard, Premium. -/
inductive PlanTier where
  | Simple
  | Standard
  | Premium
deriving DecidableEq

/-- Embeds `PAGEYOU_PLANS` from `src/config/constants.ts`. -/
def PAGEYOU_PLANS : PlanTier → PlanConfig
  | .Simple => { targetScore := 60, monthlyPrice := 30000 }
  | .Standard => { targetScore := 75, monthlyPrice := 50000 }
  | .Premium => { targetScore := 90, monthlyPrice := 100000 }

/-- Embeds `PRIORITY_THRESHOLDS` from `src/config/constants.ts`. -/
structure PriorityThreshold where
  scoreMax : ℚ
  monthlyLossMin : ℚ
deriving DecidableEq

def PRIORITY_THRESHOLDS_High : PriorityThreshold := { scoreMax := 40, monthlyLossMin := 100000 }

def PRIORITY_THRESHOLDS_Medium : PriorityThreshold := { scoreMax := 60, monthlyLossMin := 50000 }

def PRIORITY_THRESHOLDS_Low : PriorityThreshold := { scoreMax := 100, monthlyLossMin := 0 }

/-- The priority tiers High, Medium, Low. -/
inductive PriorityTier where
  | High
  | Medium
  | Low
deriving DecidableEq

/-- The `AnalysisResults` input interface of `ScoringEngine.ts`
(five `{ score }` records plus the `isHttps` flag). -/
structure AnalysisResults where
  scores : CategoryMap ℚ
  isHttps : Bool
deriving DecidableEq

/-- Result record of `calculateScores`. -/
structure CompositeScore where
  total : ℤ
  performance : ℤ
  mobile : ℤ
  seo : ℤ
  conversion : ℤ
  content : ℤ
deriving DecidableEq

/-- The industry-resolution expression shared by `calculateScores`,
`OpportunityCalculator.calculate` and `estimateROI`:
`industry ? INDUSTRY_CONFIGS[industry] || INDUSTRY_CONFIGS.default : INDUSTRY_CONFIGS.default`
(a record value is an object, hence truthy, so `||` falls back exactly
when the lookup is `undefined`). -/
def resolveIndustry (industry : Option String) : IndustryConfig :=
  match industry with
  | some id => (INDUSTRY_CONFIGS id).getD defaultConfig
  | none => defaultConfig

/-- Embeds `ScoringEngine.calculateScores` (`src/scoring/ScoringEngine.ts:25-87`). -/
def calculateScores (results : AnalysisResults) (industry : Option String) : CompositeScore :=
  let industryConfig := resolveIndustry industry
  let baseScores : CategoryMap ℚ :=
    if results.isHttps then results.scores
    else { results.scores with
            performance := max 0 (results.scores.performance - 10)
            seo := max 0 (results.scores.seo - 15) }
  let adjustedScores : CategoryMap ℤ :=
    { performance := round (baseScores.performance * industryConfig.weightMultipliers.performance)
      mobile := round (baseScores.mobile * industryConfig.weightMultipliers.mobile)
      seo := round (baseScores.seo * industryConfig.weightMultipliers.seo)
      conversion := round (baseScores.conversion * industryConfig.weightMultipliers.conversion)
      content := round (baseScores.content * industryConfig.weightMultipliers.content) }
  let w := DEFAULT_SCORING_WEIGHTS
  let totalScore : ℤ := round (
    ((adjustedScores.performance : ℚ) * w.performance +
     (adjustedScores.mobile : ℚ) * w.mobile +
     (adjustedScores.seo : ℚ) * w.seo +
     (adjustedScores.conversion : ℚ) * w.conversion +
     (adjustedScores.content : ℚ) * w.content) /
    (w.performance + w.mobile + w.seo + w.conversion + w.content))
  { total := min 100 (max 0 totalScore)
    performance := min 100 (max 0 adjustedScores.performance)
    mobile := min 100 (max 0 adjustedScores.mobile)
    seo := min 100 (max 0 adjustedScores.seo)
    conversion := min 100 (max 0 adjustedScores.conversion)
    content := min 100 (max 0 adjustedScores.content) }

/-- Embeds `ScoringEngine.recommendPlan` (`src/scoring/ScoringEngine.ts:89-97`). -/
def recommendPlan (totalScore : ℚ) : PlanTier :=
  if totalScore < 40 then .Premium
  else if totalScore < 70 then .Standard
  else .Simple

/-- Embeds `ScoringEngine.determinePriority` (`src/scoring/ScoringEngine.ts:99-114`). -/
def determinePriority (totalScore estimatedMonthlyLoss : ℚ) : PriorityTier :=
  if totalScore ≤ PRIORITY_THRESHOLDS_High.scoreMax ∨
     estimatedMonthlyLoss ≥ PRIORITY_THRESHOLDS_High.monthlyLossMin then .High
  else if totalScore ≤ PRIORITY_THRESHOLDS_Medium.scoreMax ∨
          estimatedMonthlyLoss ≥ PRIORITY_THRESHOLDS_Medium.monthlyLossMin then .Medium
  else .Low

/-- Embeds `ScoringEngine.calculateImprovementPotential` (`src/scoring/ScoringEngine.ts:116-119`). -/
def calculateImprovementPotential (currentScore : ℚ) (targetPlan : PlanTier) : ℚ :=
  max 0 ((PAGEYOU_PLANS targetPlan).targetScore - currentScore)

/-- Result record of `estimateROI`. -/
structure ROIEstimate where
  monthlyInvestment : ℚ
  estimatedMonthlyReturn : ℚ
  paybackPeriodMonths : ℤ
  threeYearROI : ℤ
deriving DecidableEq

/-- Embeds `ScoringEngine.estimateROI` (`src/scoring/ScoringEngine.ts:121-162`).
`currentMonthlyRevenue || industryConfig.averageMonthlyRevenue` falls back
exactly when the argument is absent (`undefined`) or falsy (`0`). -/
def estimateROI (currentScore : ℚ) (targetPlan : PlanTier)
    (industry : Option String) (currentMonthlyRevenue : Option ℚ) : ROIEstimate :=
  let plan := PAGEYOU_PLANS targetPlan
  let industryConfig := resolveIndustry industry
  let improvementPotential := calculateImprovementPotential currentScore targetPlan
  let revenueBase :=
    match currentMonthlyRevenue with
    | some r => if r = 0 then industryConfig.averageMonthlyRevenue else r
    | none => industryConfig.averageMonthlyRevenue
  let revenueImprovementRate := improvementPotential * 0.005
  let estimatedMonthlyReturn := revenueBase * revenueImprovementRate
  let paybackPeriodMonths : ℤ :=
    if plan.monthlyPrice > 0 then
      Int.ceil (plan.monthlyPrice / max 1 (estimatedMonthlyReturn - plan.monthlyPrice))
    else 0
  let totalInvestment := plan.monthlyPrice * 36
  let totalReturn := estimatedMonthlyReturn * 36
  let threeYearROI : ℤ :=
    if totalInvestment > 0 then round (((totalReturn - totalInvestment) / totalInvestment) * 100)
    else 0
  { monthlyInvestment := plan.monthlyPrice
    estimatedMonthlyReturn := estimatedMonthlyReturn
    paybackPeriodMonths := paybackPeriodMonths
    threeYearROI := threeYearROI }

/-- The effort levels Low, Medium, High. -/
inductive Effort where
  | Low
  | Medium
  | High
deriving DecidableEq

/-- The `Opportunity` interface from `src/types`. -/
structure Opportunity where
  title : String
  description : String
  estimatedImprovement : ℚ
  estimatedRevenueLift : ℚ
  effort : Effort
  priority : ℚ
deriving DecidableEq

/-- Embeds `String.prototype.toLowerCase`, modelled characterwise
(ASCII case mapping; the Japanese titles in the sources are caseless). -/
def toLowerCase (s : String) : String :=
  ⟨s.data.map Char.toLower⟩

/-- Embeds `String.prototype.includes`: substring containment. -/
def includesStr (s pat : String) : Bool :=
  decide (pat.data <:+: s.data)

/-- The `scores` record of the `AnalysisData` input interface of
`OpportunityCalculator.ts`. -/
structure ScoresRecord where
  total : ℚ
  performance : ℚ
  mobile : ℚ
  seo : ℚ
  conversion : ℚ
  content : ℚ
deriving DecidableEq

/-- The `AnalysisData` input interface of `OpportunityCalculator.ts`
(each `xResult` field is read only for its `opportunities` list). -/
structure AnalysisData where
  scores : ScoresRecord
  performanceResult : List Opportunity
  seoResult : List Opportunity
  mobileResult : List Opportunity
  conversionResult : List Opportunity
  contentResult : List Opportunity
deriving DecidableEq

/-- Embeds `OpportunityCalculator.adjustRevenueByIndustry`
(`src/scoring/OpportunityCalculator.ts:65-69`). -/
def adjustRevenueByIndustry (baseRevenue industryAverage : ℚ) : ℚ :=
  let adjustmentFactor := industryAverage / 2500000
  round (baseRevenue * adjustmentFactor)

/-- Embeds `OpportunityCalculator.generateSyntheticOpportunities`
(`src/scoring/OpportunityCalculator.ts:71-123`): four independent
threshold rules, each pushing one opportunity when its condition holds. -/
def generateSyntheticOpportunities (data : AnalysisData) (industryConfig : IndustryConfig) :
    List Opportunity :=
  (if data.scores.total < 30 then
    [{ title := "Webサイトの全面リニューアル"
       description := "現代的なデザインと機能で競合他社に差をつける"
       estimatedImprovement := 60
       estimatedRevenueLift := industryConfig.averageMonthlyRevenue * 0.1
       effort := .High
       priority := 10 }]
   else []) ++
  (if data.scores.performance < 50 ∧ data.scores.mobile < 50 then
    [{ title := "モバイルファースト設計への移行"
       description := "スマートフォンユーザーを最優先した高速サイトの構築"
       estimatedImprovement := 40
       estimatedRevenueLift := industryConfig.averageMonthlyRevenue * 0.08
       effort := .High
       priority := 9 }]
   else []) ++
  (if data.scores.seo < 50 ∧ data.scores.content < 50 then
    [{ title := "コンテンツマーケティング戦略の導入"
       description := "SEOに強い有益なコンテンツで集客力を強化"
       estimatedImprovement := 35
       estimatedRevenueLift := industryConfig.averageMonthlyRevenue * 0.06
       effort := .Medium
       priority := 8 }]
   else []) ++
  (if data.scores.conversion < 40 then
    [{ title := "コンバージョン最適化（CRO）プログラム"
       description := "A/Bテストとユーザー行動分析で成約率を倍増"
       estimatedImprovement := 30
       estimatedRevenueLift := industryConfig.averageMonthlyRevenue * 0.12
       effort := .Medium
       priority := 9 }]
   else [])

/-- Embeds `Map.prototype.get` on an insertion-ordered association list. -/
def mapGet (m : List (String × Opportunity)) (k : String) : Option Opportunity :=
  match m with
  | [] => none
  | p :: rest => if p.1 = k then some p.2 else mapGet rest k

/-- Embeds `Map.prototype.set` on an insertion-ordered association list:
an existing key keeps its position and gets the new value, a new key is
appended at the end (ECMAScript `Map` semantics). -/
def mapSet (m : List (String × Opportunity)) (k : String) (v : Opportunity) :
    List (String × Opportunity) :=
  if (mapGet m k).isSome then
    m.map (fun p => if p.1 = k then (k, v) else p)
  else
    m ++ [(k, v)]

/-- One `forEach` iteration of `deduplicateOpportunities`:
`if (!existing || opp.priority > existing.priority) seen.set(key, opp)`. -/
def dedupStep (m : List (String × Opportunity)) (opp : Opportunity) :
    List (String × Opportunity) :=
  let key := toLowerCase opp.title
  match mapGet m key with
  | none => mapSet m key opp
  | some existing => if opp.priority > existing.priority then mapSet m key opp else m

/-- Embeds `OpportunityCalculator.deduplicateOpportunities`
(`src/scoring/OpportunityCalculator.ts:125-138`): build the `seen` map by a
single pass, then return `Array.from(seen.values())`. -/
def deduplicateOpportunities (opportunities : List Opportunity) : List Opportunity :=
  (opportunities.foldl dedupStep []).map Prod.snd

/-- The priority boost of `recalculatePriorities`
(`src/scoring/OpportunityCalculator.ts:142-167`). -/
def priorityBoost (opp : Opportunity) (scores : ScoresRecord) : ℚ :=
  (if includesStr opp.title "パフォーマンス" ∧ scores.performance < 50 then 2 else 0) +
  (if includesStr opp.title "モバイル" ∧ scores.mobile < 50 then 2 else 0) +
  (if includesStr opp.title "SEO" ∧ scores.seo < 50 then 2 else 0) +
  (if includesStr opp.title "コンバージョン" ∧ scores.conversion < 50 then 2 else 0) +
  (if opp.effort = .Low ∧ opp.estimatedImprovement > 20 then 3 else 0) +
  (if opp.estimatedRevenueLift > 50000 then 2 else 0)

/-- The comparator of the final sort in `recalculatePriorities`, as a
total preorder in `≤`-form: `a` may come before `b` iff
`b.priority - a.priority` (or, on equal priorities,
`b.estimatedRevenueLift - a.estimatedRevenueLift`) is `≤ 0`. -/
def oppLE (a b : Opportunity) : Bool :=
  decide (b.priority < a.priority ∨
    (a.priority = b.priority ∧ b.estimatedRevenueLift ≤ a.estimatedRevenueLift))

/-- Embeds `OpportunityCalculator.recalculatePriorities`
(`src/scoring/OpportunityCalculator.ts:140-179`): boost every priority,
cap at 10, then sort descending by priority with revenue-lift tie-break
(`Array.prototype.sort` is a stable sort, modelled by `List.mergeSort`). -/
def recalculatePriorities (opportunities : List Opportunity) (scores : ScoresRecord) :
    List Opportunity :=
  (opportunities.map (fun opp =>
    { opp with priority := min 10 (opp.priority + priorityBoost opp scores) })).mergeSort oppLE

/-- Embeds `OpportunityCalculator.calculate` (`src/scoring/OpportunityCalculator.ts:21-63`). -/
def calculate (data : AnalysisData) (industry : Option String) : List Opportunity :=
  let industryConfig := resolveIndustry industry
  let allOpportunities :=
    data.performanceResult ++ data.seoResult ++ data.mobileResult ++
    data.conversionResult ++ data.contentResult
  let adjustedOpportunities := allOpportunities.map (fun opp =>
    { opp with estimatedRevenueLift :=
        adjustRevenueByIndustry opp.estimatedRevenueLift industryConfig.averageMonthlyRevenue })
  let syntheticOpportunities := generateSyntheticOpportunities data industryConfig
  let combinedOpportunities := adjustedOpportunities ++ syntheticOpportunities
  let uniqueOpportunities := deduplicateOpportunities combinedOpportunities
  let prioritizedOpportunities := recalculatePriorities uniqueOpportunities data.scores
  prioritizedOpportunities.take 10

/-! ### Spec-side reference definitions (for refinement claims) -/

/-- Clamp into `[0,100]` as `Math.min(100, Math.max(0, x))`. -/
def clampScore (x : ℤ) : ℤ := min 100 (max 0 x)

/-- The §4.1 reference algorithm, written step by step from the spec text
(resolve profile; HTTPS penalty floored at 0; multiply by industry
multiplier and round; weight-normalized rounded total; clamp every output
field into `[0,100]`).  Compared against `calculateScores`. -/
def spec_computeScores (results : AnalysisResults) (industryId : Option String) :
    CompositeScore :=
  let profile := resolveIndustry industryId
  let p := if results.isHttps then results.scores.performance
           else max 0 (results.scores.performance - 10)
  let s := if results.isHttps then results.scores.seo
           else max 0 (results.scores.seo - 15)
  let m := results.scores.mobile
  let cv := results.scores.conversion
  let ct := results.scores.content
  let adjP := round (p * profile.weightMultipliers.performance)
  let adjM := round (m * profile.weightMultipliers.mobile)
  let adjS := round (s * profile.weightMultipliers.seo)
  let adjCv := round (cv * profile.weightMultipliers.conversion)
  let adjCt := round (ct * profile.weightMultipliers.content)
  let w := DEFAULT_SCORING_WEIGHTS
  let total := round (((adjP : ℚ) * w.performance + (adjM : ℚ) * w.mobile +
    (adjS : ℚ) * w.seo + (adjCv : ℚ) * w.conversion + (adjCt : ℚ) * w.content) /
    (w.performance + w.mobile + w.seo + w.conversion + w.content))
  { total := clampScore total
    performance := clampScore adjP
    mobile := clampScore adjM
    seo := clampScore adjS
    conversion := clampScore adjCv
    content := clampScore adjCt }

/-- Spec §4.2 step 4 selection rule for one dedup key, written from the
spec text: scan in merge order, keep the incumbent unless the newcomer has
strictly higher priority (so equal priorities keep the earlier one).
Compared against `deduplicateOpportunities`. -/
def spec_bestForKey (k : String) (opportunities : List Opportunity) : Option Opportunity :=
  opportunities.foldl (fun acc o =>
    if toLowerCase o.title = k then
      match acc with
      | none => some o
      | some c => if o.priority > c.priority then some o else some c
    else acc) none

/-! ### Helper lemmas -/

lemma clampScore_bounds (x : ℤ) : 0 ≤ clampScore x ∧ clampScore x ≤ 100 :=
  ⟨le_min (by norm_num) (le_max_left 0 x), min_le_left _ _⟩

/-! ### Claims -/

/-- C1: `calculateScores` implements the §4.1 reference algorithm
(HTTPS penalty −10 performance / −15 seo floored at 0 before weighting;
per-category industry multiplier with rounding; total as the rounded
`GlobalWeights`-normalized average of the five adjusted scores); on the
default industry with secure transport and scores
`{performance:20, mobile:80, seo:80, conversion:80, content:80}` the
total is 65 and every category field equals its input score. -/
theorem calculateScores_implements_spec :
    (∀ (r : AnalysisResults) (ind : Option String),
      calculateScores r ind = spec_computeScores r ind) ∧
    calculateScores
      { scores := { performance := 20, mobile := 80, seo := 80, conversion := 80, content := 80 }
        isHttps := true } none =
      { total := 65, performance := 20, mobile := 80, seo := 80, conversion := 80, content := 80 } := by
  constructor
  · intro r ind
    rcases r with ⟨scores, hh⟩
    cases hh <;> rfl
  · unfold calculateScores resolveIndustry INDUSTRY_CONFIGS defaultConfig DEFAULT_SCORING_WEIGHTS
    norm_num [round_eq, CompositeScore.mk.injEq]

/-- C2: every field of the `CompositeScore` returned by `calculateScores`
lies in `[0,100]`, for every input and industry. -/
theorem calculateScores_fields_bounded :
    ∀ (r : AnalysisResults) (ind : Option String),
      (0 ≤ (calculateScores r ind).total ∧ (calculateScores r ind).total ≤ 100) ∧
      (0 ≤ (calculateScores r ind).performance ∧ (calculateScores r ind).performance ≤ 100) ∧
      (0 ≤ (calculateScores r ind).mobile ∧ (calculateScores r ind).mobile ≤ 100) ∧
      (0 ≤ (calculateScores r ind).seo ∧ (calculateScores r ind).seo ≤ 100) ∧
      (0 ≤ (calculateScores r ind).conversion ∧ (calculateScores r ind).conversion ≤ 100) ∧
      (0 ≤ (calculateScores r ind).content ∧ (calculateScores r ind).content ≤ 100) :=
  fun _ _ =>
    ⟨clampScore_bounds _, clampScore_bounds _, clampScore_bounds _,
     clampScore_bounds _, clampScore_bounds _, clampScore_bounds _⟩

/-- C6: `determinePriority` returns High iff `totalScore ≤ 40` or
`estimatedMonthlyLoss ≥ 100000`; otherwise Medium iff `totalScore ≤ 60` or
`estimatedMonthlyLoss ≥ 50000`; otherwise Low; in particular
`determinePriority 100 100000 = High` and `determinePriority 41 0 = Medium`. -/
theorem determinePriority_spec :
    (∀ ts loss : ℚ,
      (determinePriority ts loss = .High ↔ ts ≤ 40 ∨ loss ≥ 100000) ∧
      (determinePriority ts loss = .Medium ↔
        ¬(ts ≤ 40 ∨ loss ≥ 100000) ∧ (ts ≤ 60 ∨ loss ≥ 50000)) ∧
      (determinePriority ts loss = .Low ↔
        ¬(ts ≤ 40 ∨ loss ≥ 100000) ∧ ¬(ts ≤ 60 ∨ loss ≥ 50000))) ∧
    determinePriority 100 100000 = .High ∧ determinePriority 41 0 = .Medium := by
  refine ⟨fun ts loss => ?_, ?_, ?_⟩
  · unfold determinePriority PRIORITY_THRESHOLDS_High PRIORITY_THRESHOLDS_Medium
    split_ifs with h1 h2 <;> simp_all
  · unfold determinePriority PRIORITY_THRESHOLDS_High PRIORITY_THRESHOLDS_Medium
    rw [if_pos (by norm_num)]
  · unfold determinePriority PRIORITY_THRESHOLDS_High PRIORITY_THRESHOLDS_Medium
    rw [if_neg (by norm_num), if_pos (by norm_num)]

/-- C7: `recommendPlan` returns Premium below 40, Standard on `[40,70)` and
Simple from 70 up, with the stated boundary values. -/
theorem recommendPlan_spec :
    (∀ ts : ℚ,
      (recommendPlan ts = .Premium ↔ ts < 40) ∧
      (recommendPlan ts = .Standard ↔ 40 ≤ ts ∧ ts < 70) ∧
      (recommendPlan ts = .Simple ↔ 70 ≤ ts)) ∧
    recommendPlan 39 = .Premium ∧ recommendPlan 40 = .Standard ∧
    recommendPlan 69 = .Standard ∧ recommendPlan 70 = .Simple := by
  refine ⟨fun ts => ?_, ?_, ?_, ?_, ?_⟩
  · unfold recommendPlan
    split_ifs with h1 h2 <;> refine ⟨?_, ?_, ?_⟩ <;> (simp_all; try linarith)
  · unfold recommendPlan
    rw [if_pos (by norm_num)]
  · unfold recommendPlan
    rw [if_neg (by norm_num), if_pos (by norm_num)]
  · unfold recommendPlan
    rw [if_neg (by norm_num), if_pos (by norm_num)]
  · unfold recommendPlan
    rw [if_neg (by norm_num), if_neg (by norm_num)]

/-- The full-site-renewal synthetic opportunity pushed when `total < 30`
(`src/scoring/OpportunityCalculator.ts:76-83`). -/
def fullSiteRenewal (industryConfig : IndustryConfig) : Opportunity :=
  { title := "Webサイトの全面リニューアル"
    description := "現代的なデザインと機能で競合他社に差をつける"
    estimatedImprovement := 60
    estimatedRevenueLift := industryConfig.averageMonthlyRevenue * 0.1
    effort := .High
    priority := 10 }

/-- C5: whenever `total < 30` the synthetic generator emits the full-site
renewal opportunity (improvement 60, effort High, base priority 10, revenue
lift 10% of the industry average — 250000 for the default industry), and the
four threshold rules contribute independently as four concatenated
conditional singletons. -/
theorem generateSynthetic_full_renewal :
    (∀ (data : AnalysisData) (cfg : IndustryConfig), data.scores.total < 30 →
      fullSiteRenewal cfg ∈ generateSyntheticOpportunities data cfg) ∧
    (∀ (data : AnalysisData) (cfg : IndustryConfig),
      generateSyntheticOpportunities data cfg =
        (if data.scores.total < 30 then [fullSiteRenewal cfg] else []) ++
        (if data.scores.performance < 50 ∧ data.scores.mobile < 50 then
          [{ title := "モバイルファースト設計への移行"
             description := "スマートフォンユーザーを最優先した高速サイトの構築"
             estimatedImprovement := 40
             estimatedRevenueLift := cfg.averageMonthlyRevenue * 0.08
             effort := .High, priority := 9 }] else []) ++
        (if data.scores.seo < 50 ∧ data.scores.content < 50 then
          [{ title := "コンテンツマーケティング戦略の導入"
             description := "SEOに強い有益なコンテンツで集客力を強化"
             estimatedImprovement := 35
             estimatedRevenueLift := cfg.averageMonthlyRevenue * 0.06
             effort := .Medium, priority := 8 }] else []) ++
        (if data.scores.conversion < 40 then
          [{ title := "コンバージョン最適化（CRO）プログラム"
             description := "A/Bテストとユーザー行動分析で成約率を倍増"
             estimatedImprovement := 30
             estimatedRevenueLift := cfg.averageMonthlyRevenue * 0.12
             effort := .Medium, priority := 9 }] else [])) ∧
    (fullSiteRenewal defaultConfig).estimatedRevenueLift = 250000 := by
  refine ⟨fun data cfg h => ?_, fun data cfg => rfl, ?_⟩
  · unfold generateSyntheticOpportunities
    rw [if_pos h]
    exact List.mem_append_left _ (List.mem_append_left _
      (List.mem_append_left _ (List.mem_singleton_self _)))
  · unfold fullSiteRenewal defaultConfig
    norm_num

/-- Witness for C5 at a concrete input with `total = 25 < 30`. -/
theorem generateSynthetic_full_renewal_witness :
    fullSiteRenewal defaultConfig ∈ generateSyntheticOpportunities
      { scores := { total := 25, performance := 80, mobile := 80, seo := 80,
                    conversion := 80, content := 80 }
        performanceResult := [], seoResult := [], mobileResult := [],
        conversionResult := [], contentResult := [] } defaultConfig :=
  generateSynthetic_full_renewal.1 _ _ (by norm_num)

/-- C8 counterexample: with `currentMonthlyRevenue` supplied as `0`, the
claimed formula (revenue base = the supplied value) predicts a monthly
return of `0 * max 0 (60 - 50) * 0.005 = 0`, but the code returns 125000
(the default industry baseline is used instead). -/
theorem estimateROI_supplied_zero_counterexample :
    (estimateROI 50 .Simple none (some 0)).estimatedMonthlyReturn = 125000 ∧
    (0 : ℚ) * max 0 ((PAGEYOU_PLANS .Simple).targetScore - 50) * 0.005 = 0 ∧
    (125000 : ℚ) ≠ 0 := by
  refine ⟨?_, by norm_num, by norm_num⟩
  unfold estimateROI calculateImprovementPotential resolveIndustry defaultConfig PAGEYOU_PLANS
  norm_num [max_def]

/-- C8 (amended): `estimateROI` computes its fields by the §4.4 formulas,
with the revenue base equal to the supplied `currentMonthlyRevenue` when it
is supplied and nonzero, and the resolved industry average monthly
revenue otherwise (absent or zero). -/
theorem estimateROI_formulas :
    ∀ (c : ℚ) (p : PlanTier) (i : Option String) (r : Option ℚ),
      (estimateROI c p i r).monthlyInvestment = (PAGEYOU_PLANS p).monthlyPrice ∧
      (estimateROI c p i r).estimatedMonthlyReturn =
        (match r with
         | some v => if v ≠ 0 then v else (resolveIndustry i).averageMonthlyRevenue
         | none => (resolveIndustry i).averageMonthlyRevenue) *
        max 0 ((PAGEYOU_PLANS p).targetScore - c) * 0.005 ∧
      (estimateROI c p i r).paybackPeriodMonths =
        (if (PAGEYOU_PLANS p).monthlyPrice > 0 then
          Int.ceil ((PAGEYOU_PLANS p).monthlyPrice /
            max 1 ((estimateROI c p i r).estimatedMonthlyReturn - (PAGEYOU_PLANS p).monthlyPrice))
         else 0) ∧
      (estimateROI c p i r).threeYearROI =
        (if (PAGEYOU_PLANS p).monthlyPrice * 36 > 0 then
          round ((((estimateROI c p i r).estimatedMonthlyReturn * 36 -
              (PAGEYOU_PLANS p).monthlyPrice * 36) /
            ((PAGEYOU_PLANS p).monthlyPrice * 36)) * 100)
         else 0) := by
  intro c p i r
  refine ⟨rfl, ?_, rfl, rfl⟩
  rcases r with _ | v
  · exact (mul_assoc _ _ _).symm
  · show (estimateROI c p i (some v)).estimatedMonthlyReturn =
      (if v ≠ 0 then v else (resolveIndustry i).averageMonthlyRevenue) *
        max 0 ((PAGEYOU_PLANS p).targetScore - c) * 0.005
    have hbase : (if v ≠ 0 then v else (resolveIndustry i).averageMonthlyRevenue) =
        (if v = 0 then (resolveIndustry i).averageMonthlyRevenue else v) := by
      by_cases hv : v = 0 <;> simp [hv]
    rw [hbase]
    exact (mul_assoc _ _ _).symm

/-- C9: an industry id missing from the registry resolves to the default
profile, so both `calculateScores` and `calculate` behave exactly as with
an absent id or the id `"default"`. -/
theorem unknown_industry_defaults :
    ∀ id : String, INDUSTRY_CONFIGS id = none →
      (∀ r : AnalysisResults,
        calculateScores r (some id) = calculateScores r none ∧
        calculateScores r (some id) = calculateScores r (some "default")) ∧
      (∀ data : AnalysisData,
        calculate data (some id) = calculate data none ∧
        calculate data (some id) = calculate data (some "default")) := by
  intro id h
  have e1 : resolveIndustry (some id) = defaultConfig := by
    show (INDUSTRY_CONFIGS id).getD defaultConfig = defaultConfig
    rw [h]
    rfl
  have e2 : resolveIndustry none = defaultConfig := rfl
  have e3 : resolveIndustry (some "default") = defaultConfig := rfl
  constructor
  · intro r
    constructor <;> · simp only [calculateScores, e1, e2, e3]
  · intro data
    constructor <;> · simp only [calculate, e1, e2, e3]

/-- Witness for C9 at the unregistered id `"smoke-test"`. -/
theorem unknown_industry_defaults_witness :
    calculateScores
      { scores := { performance := 50, mobile := 50, seo := 50, conversion := 50, content := 50 }
        isHttps := true } (some "smoke-test") =
    calculateScores
      { scores := { performance := 50, mobile := 50, seo := 50, conversion := 50, content := 50 }
        isHttps := true } none :=
  ((unknown_industry_defaults "smoke-test" (by decide)).1 _).1

/-- C10: a `currentMonthlyRevenue` explicitly supplied as `0` behaves
exactly like an absent argument: `estimateROI` falls back to the industry
baseline, so the monthly return at score 50 on the Simple plan for the
default industry is 125000, not 0. -/
theorem estimateROI_zero_revenue_like_absent :
    (∀ (c : ℚ) (p : PlanTier) (i : Option String),
      estimateROI c p i (some 0) = estimateROI c p i none) ∧
    (estimateROI 50 .Simple none (some 0)).estimatedMonthlyReturn = 125000 ∧
    (estimateROI 50 .Simple none (some 0)).estimatedMonthlyReturn ≠ 0 := by
  refine ⟨fun c p i => rfl, ?_, ?_⟩ <;>
    · unfold estimateROI calculateImprovementPotential resolveIndustry defaultConfig PAGEYOU_PLANS
      norm_num [max_def]

/-! ### Deduplication lemmas -/

lemma mapGet_map_replace_same (m : List (String × Opportunity)) (k : String) (v : Opportunity) :
    mapGet (m.map (fun p => if p.1 = k then (k, v) else p)) k =
      if (mapGet m k).isSome then some v else none := by
  induction m with
  | nil => rfl
  | cons p rest ih =>
    by_cases hp : p.1 = k
    · simp [mapGet, hp]
    · simp [mapGet, hp, ih]

lemma mapGet_map_replace_ne (m : List (String × Opportunity)) (k : String) (v : Opportunity)
    (k' : String) (h : k' ≠ k) :
    mapGet (m.map (fun p => if p.1 = k then (k, v) else p)) k' = mapGet m k' := by
  induction m with
  | nil => rfl
  | cons p rest ih =>
    by_cases hp : p.1 = k
    · simp [mapGet, hp, ih, Ne.symm h]
    · simp [mapGet, hp, ih]

lemma mapGet_append_single (m : List (String × Opportunity)) (k : String) (v : Opportunity)
    (k' : String) :
    mapGet (m ++ [(k, v)]) k' =
      if (mapGet m k').isSome then mapGet m k' else if k = k' then some v else none := by
  induction m with
  | nil => simp [mapGet]
  | cons p rest ih =>
    by_cases hp : p.1 = k' <;> simp [mapGet, hp, ih]

lemma mapGet_mapSet (m : List (String × Opportunity)) (k : String) (v : Opportunity)
    (k' : String) :
    mapGet (mapSet m k v) k' = if k' = k then some v else mapGet m k' := by
  unfold mapSet
  split_ifs with hs hk hk
  · subst hk
    rw [mapGet_map_replace_same]
    simp [hs]
  · exact mapGet_map_replace_ne _ _ _ _ hk
  · subst hk
    have hnone : mapGet m k' = none := by
      cases h : mapGet m k'
      · rfl
      · exact absurd (by simp [h]) hs
    rw [mapGet_append_single]
    simp [hnone]
  · rw [mapGet_append_single]
    cases h : mapGet m k'
    · simp [h]
      exact fun e => hk e.symm
    · simp [h]

lemma mapGet_dedupStep (m : List (String × Opportunity)) (o : Opportunity) (k : String) :
    mapGet (dedupStep m o) k =
      if toLowerCase o.title = k then
        match mapGet m k with
        | none => some o
        | some c => if o.priority > c.priority then some o else some c
      else mapGet m k := by
  simp only [dedupStep]
  by_cases hk : toLowerCase o.title = k
  · subst hk
    rw [if_pos rfl]
    cases h : mapGet m (toLowerCase o.title)
    · rw [mapGet_mapSet, if_pos rfl]
    · dsimp only
      split_ifs with hp
      · rw [mapGet_mapSet, if_pos rfl]
      · exact h
  · rw [if_neg hk]
    cases h : mapGet m (toLowerCase o.title)
    · rw [mapGet_mapSet, if_neg (fun e => hk e.symm)]
    · dsimp only
      split_ifs with hp
      · rw [mapGet_mapSet, if_neg (fun e => hk e.symm)]
      · rfl

lemma mapGet_foldl_dedupStep (opps : List Opportunity) :
    ∀ (m : List (String × Opportunity)) (k : String),
      mapGet (opps.foldl dedupStep m) k =
        opps.foldl (fun acc o =>
          if toLowerCase o.title = k then
            match acc with
            | none => some o
            | some c => if o.priority > c.priority then some o else some c
          else acc) (mapGet m k) := by
  induction opps with
  | nil => intro m k; rfl
  | cons o rest ih =>
    intro m k
    simp only [List.foldl_cons]
    rw [ih, mapGet_dedupStep]

lemma mapGet_seen (opps : List Opportunity) (k : String) :
    mapGet (opps.foldl dedupStep []) k = spec_bestForKey k opps := by
  rw [mapGet_foldl_dedupStep]
  rfl

/-- The two invariants of the `seen` map: keys are distinct, and every
entry is stored under the lowercased title of its value. -/
def goodMap (m : List (String × Opportunity)) : Prop :=
  (m.map Prod.fst).Nodup ∧ ∀ p ∈ m, p.1 = toLowerCase p.2.title

lemma mapGet_eq_none_of_not_mem (m : List (String × Opportunity)) (k : String)
    (h : k ∉ m.map Prod.fst) : mapGet m k = none := by
  induction m with
  | nil => rfl
  | cons p rest ih =>
    simp only [List.map_cons, List.mem_cons] at h
    push_neg at h
    show (if p.1 = k then some p.2 else mapGet rest k) = none
    rw [if_neg (fun e : p.1 = k => h.1 e.symm)]
    exact ih h.2

lemma not_mem_of_mapGet_eq_none (m : List (String × Opportunity)) (k : String)
    (h : mapGet m k = none) : k ∉ m.map Prod.fst := by
  induction m with
  | nil => simp
  | cons p rest ih =>
    rw [show mapGet (p :: rest) k = if p.1 = k then some p.2 else mapGet rest k from rfl] at h
    by_cases hp : p.1 = k
    · rw [if_pos hp] at h
      exact absurd h (by simp)
    · rw [if_neg hp] at h
      simp only [List.map_cons, List.mem_cons]
      push_neg
      exact ⟨fun e => hp e.symm, ih h⟩

lemma goodMap_mapSet (m : List (String × Opportunity)) (k : String) (v : Opportunity)
    (hg : goodMap m) (hk : k = toLowerCase v.title) : goodMap (mapSet m k v) := by
  obtain ⟨hnd, hinv⟩ := hg
  unfold mapSet
  split_ifs with hs
  · constructor
    · have hkeys : (m.map (fun p => if p.1 = k then (k, v) else p)).map Prod.fst =
          m.map Prod.fst := by
        rw [List.map_map]
        refine List.map_congr_left ?_
        intro p _
        by_cases hp : p.1 = k <;> simp [Function.comp, hp]
      rw [hkeys]
      exact hnd
    · intro p hp
      rw [List.mem_map] at hp
      obtain ⟨q, hq, rfl⟩ := hp
      by_cases hqk : q.1 = k
      · rw [if_pos hqk]
        exact hk
      · rw [if_neg hqk]
        exact hinv q hq
  · have hnotmem : k ∉ m.map Prod.fst := by
      refine not_mem_of_mapGet_eq_none m k ?_
      cases h : mapGet m k
      · rfl
      · exact absurd (by simp [h]) hs
    constructor
    · rw [List.map_append]
      simp only [List.map_cons, List.map_nil]
      exact List.Nodup.append hnd (List.nodup_singleton k) (by simpa using hnotmem)
    · intro p hp
      rcases List.mem_append.mp hp with h | h
      · exact hinv p h
      · simp only [List.mem_singleton] at h
        subst h
        exact hk

lemma goodMap_dedupStep (m : List (String × Opportunity)) (o : Opportunity)
    (hg : goodMap m) : goodMap (dedupStep m o) := by
  simp only [dedupStep]
  cases h : mapGet m (toLowerCase o.title)
  · exact goodMap_mapSet _ _ _ hg rfl
  · dsimp only
    split_ifs with hp
    · exact goodMap_mapSet _ _ _ hg rfl
    · exact hg

lemma goodMap_foldl (opps : List Opportunity) :
    ∀ m : List (String × Opportunity), goodMap m → goodMap (opps.foldl dedupStep m) := by
  induction opps with
  | nil => intro m hg; exact hg
  | cons o rest ih =>
    intro m hg
    simp only [List.foldl_cons]
    exact ih _ (goodMap_dedupStep m o hg)

lemma filter_values_eq (m : List (String × Opportunity)) (k : String) (hg : goodMap m) :
    (m.map Prod.snd).filter (fun o => decide (toLowerCase o.title = k)) =
      (mapGet m k).toList := by
  induction m with
  | nil => rfl
  | cons p rest ih =>
    obtain ⟨hnd, hinv⟩ := hg
    have hkey : p.1 = toLowerCase p.2.title := hinv p (List.mem_cons_self p rest)
    have hndrest : (rest.map Prod.fst).Nodup := (List.nodup_cons.mp (by simpa using hnd)).2
    have hheadnot : p.1 ∉ rest.map Prod.fst := (List.nodup_cons.mp (by simpa using hnd)).1
    have hrest : goodMap rest :=
      ⟨hndrest, fun q hq => hinv q (List.mem_cons_of_mem _ hq)⟩
    by_cases hpk : p.1 = k
    · have hfil : (rest.map Prod.snd).filter (fun o => decide (toLowerCase o.title = k)) = [] := by
        rw [List.filter_eq_nil_iff]
        intro o ho
        rw [List.mem_map] at ho
        obtain ⟨q, hq, rfl⟩ := ho
        have hqk := hinv q (List.mem_cons_of_mem _ hq)
        simp only [decide_eq_true_eq]
        intro heq
        exact (hpk ▸ hheadnot) (List.mem_map.mpr ⟨q, hq, hqk ▸ heq⟩)
      simp [mapGet, hpk, List.filter_cons, hkey ▸ hpk, hfil]
    · have hps : ¬(toLowerCase p.2.title = k) := hkey ▸ hpk
      simp [mapGet, hpk, List.filter_cons, hps, ih hrest]

/-- C3: deduplication is by case-insensitive exact title match — for every
merged list and every lowercased-title key, the surviving list restricted
to that key is exactly the single opportunity selected by the spec rule
(strictly higher priority wins; equal priorities keep the earlier one);
in particular two same-titled opportunities with priorities 6 and 9 leave
exactly the one with priority 9. -/
theorem dedup_by_lowercased_title :
    (∀ (opps : List Opportunity) (k : String),
      (deduplicateOpportunities opps).filter (fun o => decide (toLowerCase o.title = k)) =
        (spec_bestForKey k opps).toList) ∧
    deduplicateOpportunities
      [{ title := "Speed Up", description := "a", estimatedImprovement := 5,
         estimatedRevenueLift := 1000, effort := .Low, priority := 6 },
       { title := "speed UP", description := "b", estimatedImprovement := 7,
         estimatedRevenueLift := 2000, effort := .Medium, priority := 9 }] =
      [{ title := "speed UP", description := "b", estimatedImprovement := 7,
         estimatedRevenueLift := 2000, effort := .Medium, priority := 9 }] := by
  constructor
  · intro opps k
    unfold deduplicateOpportunities
    rw [filter_values_eq _ _ (goodMap_foldl _ _ ⟨by simp, by simp⟩)]
    rw [mapGet_seen]
  · decide

/-! ### Sorting lemmas -/

lemma oppLE_trans : ∀ a b c : Opportunity,
    oppLE a b = true → oppLE b c = true → oppLE a c = true := by
  intro a b c hab hbc
  simp only [oppLE, decide_eq_true_eq] at *
  rcases hab with h | ⟨h1, h2⟩ <;> rcases hbc with g | ⟨g1, g2⟩
  · exact Or.inl (lt_trans g h)
  · exact Or.inl (g1 ▸ h)
  · exact Or.inl (h1 ▸ g)
  · exact Or.inr ⟨h1.trans g1, le_trans g2 h2⟩

lemma oppLE_total : ∀ a b : Opportunity, (oppLE a b || oppLE b a) = true := by
  intro a b
  simp only [oppLE, Bool.or_eq_true, decide_eq_true_eq]
  rcases lt_trichotomy a.priority b.priority with h | h | h
  · exact Or.inr (Or.inl h)
  · rcases le_total a.estimatedRevenueLift b.estimatedRevenueLift with hl | hl
    · exact Or.inr (Or.inr ⟨h.symm, hl⟩)
    · exact Or.inl (Or.inr ⟨h, hl⟩)
  · exact Or.inl (Or.inl h)

/-- C4: for every input, `calculate` returns at most 10 opportunities,
sorted descending by final priority with ties broken by
`estimatedRevenueLift` descending. -/
theorem calculate_truncated_and_sorted :
    ∀ (data : AnalysisData) (industry : Option String),
      (calculate data industry).length ≤ 10 ∧
      (calculate data industry).Pairwise (fun a b =>
        b.priority < a.priority ∨
        (a.priority = b.priority ∧ b.estimatedRevenueLift ≤ a.estimatedRevenueLift)) := by
  intro data industry
  constructor
  · simp only [calculate]
    simp [List.length_take]
  · simp only [calculate, recalculatePriorities]
    apply List.Pairwise.sublist (List.take_sublist _ _)
    refine (List.sorted_mergeSort oppLE_trans oppLE_total _).imp ?_
    intro a b hab
    simpa only [oppLE, decide_eq_true_eq] using hab

end PageYou
